import Mathlib

/-!
Verification of the ExodTools collateralized-lending vault
(smart_contracts/exod_tools/contract.algo.ts).

The contract state and operations are shallowly embedded: per-account
loan records live in a map from account identifiers to LoanData, and
each ABI method becomes a function from a VaultState (plus the method
arguments and the transaction context it reads: the sender, the group
transfer amount, the current timestamp) to an Except value, where an
error carries the assert message of the on-chain failure.  AVM uint64
arithmetic panics on overflow and underflow, so every multiplication,
addition and subtraction of the source is guarded by an explicit bound
check that fails the call exactly where the AVM program would fail.
Inner asset transfers are returned as explicit AssetTransfer values.
-/

namespace ExodTools

/-- The AVM works on unsigned 64-bit words: any arithmetic result at or
above this bound makes the program fail. -/
def U64LIM : Nat := 2 ^ 64

/-- User loan data structure stored in boxes
(contract.algo.ts, class LoanData). -/
structure LoanData where
  collateralAmount : Nat
  borrowedAmount : Nat
  lastUpdateTime : Nat
deriving Repr, DecidableEq

/-- An inner asset-transfer effect: which asset, to whom, how much. -/
structure AssetTransfer where
  asset : Nat
  receiver : Nat
  amount : Nat
deriving Repr, DecidableEq

/-- The contract's global state together with its box storage
(contract.algo.ts, class ExodTools fields).  Accounts and asset ids are
opaque, modelled as naturals. -/
structure VaultState where
  exodAssetId : Nat
  stablecoinAssetId : Nat
  creatorAddress : Nat
  liquidationAddress : Nat
  collateralizationRatio : Nat
  liquidationThreshold : Nat
  loans : Nat → Option LoanData

/-- createApplication (contract.algo.ts lines 53-66): record the asset
ids, the liquidation address and both ratio parameters; no loan exists
yet.  The creator is the sender of the creation transaction. -/
def createApplication (exodAssetId stablecoinAssetId liquidationAddress
    collateralizationRatio liquidationThreshold creator : Nat) : VaultState :=
  { exodAssetId := exodAssetId
    stablecoinAssetId := stablecoinAssetId
    creatorAddress := creator
    liquidationAddress := liquidationAddress
    collateralizationRatio := collateralizationRatio
    liquidationThreshold := liquidationThreshold
    loans := fun _ => none }

/-- Write one account's loan record into box storage, leaving every
other box untouched (this is what this.loans.set does). -/
def setLoan (s : VaultState) (acct : Nat) (ld : LoanData) : VaultState :=
  { s with loans := fun a => if a = acct then some ld else s.loans a }

/-- depositCollateral (contract.algo.ts lines 106-151, first draft).
The group-transaction plumbing asserts (group index, transfer sender,
receiver, asset id) are taken as given; the transferred amount is the
argument.  The draft performs NO frozen-status check: the comment at
lines 126-129 explicitly defers it.  Loan data is loaded or
default-initialized, the collateral is increased and the timestamp
set. -/
def depositCollateral (s : VaultState) (sender amount now : Nat) :
    Except String VaultState :=
  if 0 < amount then
    let loanData := (s.loans sender).getD ⟨0, 0, 0⟩
    if loanData.collateralAmount + amount < U64LIM then
      .ok (setLoan s sender
        ⟨loanData.collateralAmount + amount, loanData.borrowedAmount, now⟩)
    else .error "overflow"
  else .error "Collateral amount must be positive"

/-- depositCollateral of the second draft (contract.algo.ts lines
496-527), which DOES perform the compliance check: after validating the
transfer it asserts that the sender's holding of the collateral asset
is not frozen (line 509).  The frozen status is external ledger state,
supplied here as a predicate. -/
def depositCollateralV2 (s : VaultState) (frozen : Nat → Bool)
    (sender amount now : Nat) : Except String VaultState :=
  if 0 < amount then
    if frozen sender then
      .error "EXOD asset is frozen - compliance violation detected"
    else
      let loanData := (s.loans sender).getD ⟨0, 0, 0⟩
      if loanData.collateralAmount + amount < U64LIM then
        .ok (setLoan s sender
          ⟨loanData.collateralAmount + amount, loanData.borrowedAmount, now⟩)
      else .error "overflow"
  else .error "Collateral amount must be positive"

/-- borrowStablecoin (contract.algo.ts lines 164-200): require a loan
record; compute the collateral value (full product, then division by
the 1e6 price scale), the new total debt and the required collateral
value (product with the ratio, then division by 10000); assert
sufficiency; record the new debt and transfer the stablecoin out. -/
def borrowStablecoin (s : VaultState) (sender borrowAmount exodPrice now : Nat) :
    Except String (VaultState × AssetTransfer) :=
  match s.loans sender with
  | none => .error "No collateral deposited"
  | some loanData =>
    if loanData.collateralAmount * exodPrice < U64LIM then
      let collateralValue := loanData.collateralAmount * exodPrice / 1000000
      if loanData.borrowedAmount + borrowAmount < U64LIM then
        let newBorrowedAmount := loanData.borrowedAmount + borrowAmount
        if newBorrowedAmount * s.collateralizationRatio < U64LIM then
          let requiredCollateral := newBorrowedAmount * s.collateralizationRatio / 10000
          if requiredCollateral ≤ collateralValue then
            .ok (setLoan s sender ⟨loanData.collateralAmount, newBorrowedAmount, now⟩,
                 ⟨s.stablecoinAssetId, sender, borrowAmount⟩)
          else .error "Insufficient collateral for borrow amount"
        else .error "overflow"
      else .error "overflow"
    else .error "overflow"

/-- repayLoan (contract.algo.ts lines 207-242): the repayment transfer
amount must be positive, a loan record must exist, and the repayment
must not exceed the outstanding debt; then the debt is reduced. -/
def repayLoan (s : VaultState) (sender amount now : Nat) :
    Except String VaultState :=
  if 0 < amount then
    match s.loans sender with
    | none => .error "No active loan"
    | some loanData =>
      if amount ≤ loanData.borrowedAmount then
        .ok (setLoan s sender
          ⟨loanData.collateralAmount, loanData.borrowedAmount - amount, now⟩)
      else .error "Repayment exceeds borrowed amount"
  else .error "Repayment amount must be positive"

/-- withdrawCollateral (contract.algo.ts lines 251-289): require a loan
record and enough collateral; compute the remaining collateral and its
value (the product is computed before the debt test, as in the source);
if debt is outstanding, assert the remaining value still covers the
required collateral value; then record the remaining collateral and
transfer the withdrawn amount back. -/
def withdrawCollateral (s : VaultState) (sender withdrawAmount exodPrice now : Nat) :
    Except String (VaultState × AssetTransfer) :=
  match s.loans sender with
  | none => .error "No collateral deposited"
  | some loanData =>
    if withdrawAmount ≤ loanData.collateralAmount then
      let remainingCollateral := loanData.collateralAmount - withdrawAmount
      if remainingCollateral * exodPrice < U64LIM then
        let remainingCollateralValue := remainingCollateral * exodPrice / 1000000
        if 0 < loanData.borrowedAmount then
          if loanData.borrowedAmount * s.collateralizationRatio < U64LIM then
            if loanData.borrowedAmount * s.collateralizationRatio / 10000 ≤
                remainingCollateralValue then
              .ok (setLoan s sender ⟨remainingCollateral, loanData.borrowedAmount, now⟩,
                   ⟨s.exodAssetId, sender, withdrawAmount⟩)
            else .error "Withdrawal would under-collateralize loan"
          else .error "overflow"
        else
          .ok (setLoan s sender ⟨remainingCollateral, loanData.borrowedAmount, now⟩,
               ⟨s.exodAssetId, sender, withdrawAmount⟩)
      else .error "overflow"
    else .error "Insufficient collateral balance"

/-- liquidateLoan (contract.algo.ts lines 303-339): require a loan
record with positive debt and positive collateral; compute the
collateral value and the threshold value floor(debt * threshold /
10000); assert strict under-collateralization; transfer the FULL
collateral to the liquidation address and zero the position. -/
def liquidateLoan (s : VaultState) (borrower exodPrice now : Nat) :
    Except String (VaultState × AssetTransfer) :=
  match s.loans borrower with
  | none => .error "No active loan for borrower"
  | some loanData =>
    if 0 < loanData.borrowedAmount then
      if 0 < loanData.collateralAmount then
        if loanData.collateralAmount * exodPrice < U64LIM then
          let collateralValue := loanData.collateralAmount * exodPrice / 1000000
          if loanData.borrowedAmount * s.liquidationThreshold < U64LIM then
            let thresholdValue := loanData.borrowedAmount * s.liquidationThreshold / 10000
            if collateralValue < thresholdValue then
              .ok (setLoan s borrower ⟨0, 0, now⟩,
                   ⟨s.exodAssetId, s.liquidationAddress, loanData.collateralAmount⟩)
            else .error "Loan is sufficiently collateralized"
          else .error "overflow"
        else .error "overflow"
      else .error "No collateral to liquidate"
    else .error "No outstanding loan"

/-- getLoanInfo (contract.algo.ts lines 347-359): read-only view,
all-zero when no record exists. -/
def getLoanInfo (s : VaultState) (user : Nat) : Nat × Nat × Nat :=
  match s.loans user with
  | some loanData =>
    (loanData.collateralAmount, loanData.borrowedAmount, loanData.lastUpdateTime)
  | none => (0, 0, 0)

/-- updateLiquidationParams (contract.algo.ts lines 365-373): only the
creator may call; the new threshold must exceed 10000 and the new ratio
must exceed the new threshold; both fields are overwritten. -/
def updateLiquidationParams (s : VaultState) (sender newThreshold newRatio : Nat) :
    Except String VaultState :=
  if sender = s.creatorAddress then
    if 10000 < newThreshold then
      if newThreshold < newRatio then
        .ok { s with liquidationThreshold := newThreshold,
                     collateralizationRatio := newRatio }
      else .error "Collateralization ratio must be > liquidation threshold"
    else .error "Threshold must be > 100%"
  else .error "Only creator can update parameters"

/-- The state an operation leaves behind: the new state on success, the
unchanged input state when the call is rejected (an AVM assert failure
aborts the whole transaction, so a rejected call mutates nothing). -/
def outState (s : VaultState) : Except String VaultState → VaultState
  | .ok s1 => s1
  | .error _ => s

/-- Same as outState for operations that also emit an asset transfer. -/
def outStateT (s : VaultState) : Except String (VaultState × AssetTransfer) → VaultState
  | .ok (s1, _) => s1
  | .error _ => s

/-- The asset transfer emitted by a successful operation, none on
rejection. -/
def transferOf : Except String (VaultState × AssetTransfer) → Option AssetTransfer
  | .ok (_, t) => some t
  | .error _ => none

/-- The assert message of a rejected operation, none on success. -/
def errorOf {α : Type} : Except String α → Option String
  | .ok _ => none
  | .error e => some e

/-- The valuation function of the source (inlined at contract.algo.ts
lines 173, 264, 315): floor(amount * price / 1e6). -/
def collateralValue (amount price : Nat) : Nat := amount * price / 1000000

/-- Modelled from the spec: the spec's liquidation-boundary predicate
(spec.md section 8), written exactly in the product form the spec uses,
for comparison with the guard the code implements. -/
def isLiquidatableSpec (collateral debt price thresholdBps : Nat) : Bool :=
  decide (collateralValue collateral price * 10000 < debt * thresholdBps)

/-- A vault created with the README's example parameters (ratio 15000
bps, threshold 12000 bps) and no loans. -/
def initState : VaultState := createApplication 10 20 1 15000 12000 0

/-- A vault with parameters as in initState whose box storage holds a
single loan record. -/
def stateWith (ratio threshold acct : Nat) (ld : LoanData) : VaultState :=
  { exodAssetId := 10
    stablecoinAssetId := 20
    creatorAddress := 0
    liquidationAddress := 1
    collateralizationRatio := ratio
    liquidationThreshold := threshold
    loans := fun a => if a = acct then some ld else none }

/-! ### Concrete states used by the claim witnesses and counterexamples -/

/-- After depositing 1 collateral unit from account 7 into a fresh
vault. -/
def c1s1 : VaultState := outState initState (depositCollateral initState 7 1 100)

/-- After additionally borrowing 1 debt unit at price 1000000. -/
def c1s2 : VaultState := outStateT c1s1 (borrowStablecoin c1s1 7 1 1000000 200)

/-- Scenario-1 position: 10,000,000 collateral units, no debt. -/
def c1wState : VaultState := stateWith 15000 12000 7 ⟨10000000, 0, 0⟩

/-- A position of 3 collateral units against 3 debt units. -/
def c2CexState : VaultState := stateWith 15000 12000 5 ⟨3, 3, 0⟩

/-- Scenario-3 position: collateral 15,000,000, debt 100,000,000,
threshold 12000 bps. -/
def c2wState : VaultState := stateWith 15000 12000 5 ⟨15000000, 100000000, 0⟩

/-- Scenario-5 position: collateral 20,000,000, debt 150,000,000. -/
def c3State : VaultState := stateWith 15000 12000 5 ⟨20000000, 150000000, 0⟩

/-- A debt-free position of 10 collateral units. -/
def c5State : VaultState := stateWith 15000 12000 7 ⟨10, 0, 0⟩

/-- A position with 10 collateral units and 7 debt units. -/
def c6wState : VaultState := stateWith 15000 12000 7 ⟨10, 7, 0⟩

/-- A debt-free position of 100 collateral units. -/
def c7wState : VaultState := stateWith 15000 12000 7 ⟨100, 0, 0⟩

/-- A position with 100 collateral units and 100 debt units. -/
def c9State : VaultState := stateWith 15000 12000 5 ⟨100, 100, 0⟩

/-! ### Helper lemmas -/

theorem setLoan_loans_self (s : VaultState) (acct : Nat) (ld : LoanData) :
    (setLoan s acct ld).loans acct = some ld := by
  simp [setLoan]

theorem setLoan_loans_ne {s : VaultState} {acct b : Nat} (ld : LoanData) (h : b ≠ acct) :
    (setLoan s acct ld).loans b = s.loans b := by
  simp [setLoan, h]

theorem outState_of_isOk_false {s : VaultState} {r : Except String VaultState}
    (h : r.isOk = false) : outState s r = s := by
  cases r with
  | ok v => simp [Except.isOk, Except.toBool] at h
  | error e => rfl

theorem outStateT_of_isOk_false {s : VaultState} {r : Except String (VaultState × AssetTransfer)}
    (h : r.isOk = false) : outStateT s r = s := by
  cases r with
  | ok v => simp [Except.isOk, Except.toBool] at h
  | error e => rfl

/-- Successful deposits have exactly one shape: the collateral grows by
the deposited amount, the debt is untouched, the timestamp is
refreshed. -/
theorem deposit_ok_inv {s : VaultState} {sender amount now : Nat}
    (hok : (depositCollateral s sender amount now).isOk = true) :
    0 < amount ∧
    ((s.loans sender).getD ⟨0, 0, 0⟩).collateralAmount + amount < U64LIM ∧
    depositCollateral s sender amount now =
      .ok (setLoan s sender
        ⟨((s.loans sender).getD ⟨0, 0, 0⟩).collateralAmount + amount,
         ((s.loans sender).getD ⟨0, 0, 0⟩).borrowedAmount, now⟩) := by
  unfold depositCollateral at hok ⊢
  by_cases h1 : 0 < amount
  · by_cases h2 : ((s.loans sender).getD ⟨0, 0, 0⟩).collateralAmount + amount < U64LIM
    · exact ⟨h1, h2, by simp [h1, h2]⟩
    · simp [h1, h2, Except.isOk, Except.toBool] at hok
  · simp [h1, Except.isOk, Except.toBool] at hok

theorem deposit_eq_ok {s : VaultState} {sender amount now : Nat} {ld : LoanData}
    (hl : s.loans sender = some ld) (h1 : 0 < amount)
    (h2 : ld.collateralAmount + amount < U64LIM) :
    depositCollateral s sender amount now =
      .ok (setLoan s sender ⟨ld.collateralAmount + amount, ld.borrowedAmount, now⟩) := by
  unfold depositCollateral
  simp [hl, h1, h2]

/-- Successful borrows have exactly one shape: the debt grows by the
borrowed amount and the stated collateralization check passed. -/
theorem borrow_ok_inv {s : VaultState} {sender amt price now : Nat}
    (hok : (borrowStablecoin s sender amt price now).isOk = true) :
    ∃ ld, s.loans sender = some ld ∧
      ld.collateralAmount * price < U64LIM ∧
      ld.borrowedAmount + amt < U64LIM ∧
      (ld.borrowedAmount + amt) * s.collateralizationRatio < U64LIM ∧
      (ld.borrowedAmount + amt) * s.collateralizationRatio / 10000 ≤
        ld.collateralAmount * price / 1000000 ∧
      borrowStablecoin s sender amt price now =
        .ok (setLoan s sender ⟨ld.collateralAmount, ld.borrowedAmount + amt, now⟩,
             ⟨s.stablecoinAssetId, sender, amt⟩) := by
  unfold borrowStablecoin at hok ⊢
  cases hl : s.loans sender with
  | none => rw [hl] at hok; simp [Except.isOk, Except.toBool] at hok
  | some ld =>
    rw [hl] at hok
    by_cases h1 : ld.collateralAmount * price < U64LIM
    · by_cases h2 : ld.borrowedAmount + amt < U64LIM
      · by_cases h3 : (ld.borrowedAmount + amt) * s.collateralizationRatio < U64LIM
        · by_cases h4 : (ld.borrowedAmount + amt) * s.collateralizationRatio / 10000 ≤
              ld.collateralAmount * price / 1000000
          · exact ⟨ld, rfl, h1, h2, h3, h4, by simp [h1, h2, h3, h4]⟩
          · simp [h1, h2, h3, h4, Except.isOk, Except.toBool] at hok
        · simp [h1, h2, h3, Except.isOk, Except.toBool] at hok
      · simp [h1, h2, Except.isOk, Except.toBool] at hok
    · simp [h1, Except.isOk, Except.toBool] at hok

theorem borrow_eq_ok {s : VaultState} {sender amt price now : Nat} {ld : LoanData}
    (hl : s.loans sender = some ld)
    (h1 : ld.collateralAmount * price < U64LIM)
    (h2 : ld.borrowedAmount + amt < U64LIM)
    (h3 : (ld.borrowedAmount + amt) * s.collateralizationRatio < U64LIM)
    (h4 : (ld.borrowedAmount + amt) * s.collateralizationRatio / 10000 ≤
        ld.collateralAmount * price / 1000000) :
    borrowStablecoin s sender amt price now =
      .ok (setLoan s sender ⟨ld.collateralAmount, ld.borrowedAmount + amt, now⟩,
           ⟨s.stablecoinAssetId, sender, amt⟩) := by
  unfold borrowStablecoin
  rw [hl]
  simp [h1, h2, h3, h4]

theorem borrow_eq_error_insufficient {s : VaultState} {sender amt price now : Nat}
    {ld : LoanData} (hl : s.loans sender = some ld)
    (h1 : ld.collateralAmount * price < U64LIM)
    (h2 : ld.borrowedAmount + amt < U64LIM)
    (h3 : (ld.borrowedAmount + amt) * s.collateralizationRatio < U64LIM)
    (h4 : ¬ (ld.borrowedAmount + amt) * s.collateralizationRatio / 10000 ≤
        ld.collateralAmount * price / 1000000) :
    borrowStablecoin s sender amt price now =
      .error "Insufficient collateral for borrow amount" := by
  unfold borrowStablecoin
  rw [hl]
  simp [h1, h2, h3, h4]

/-- Successful repayments have exactly one shape. -/
theorem repay_ok_inv {s : VaultState} {sender amount now : Nat}
    (hok : (repayLoan s sender amount now).isOk = true) :
    ∃ ld, s.loans sender = some ld ∧ 0 < amount ∧ amount ≤ ld.borrowedAmount ∧
      repayLoan s sender amount now =
        .ok (setLoan s sender ⟨ld.collateralAmount, ld.borrowedAmount - amount, now⟩) := by
  unfold repayLoan at hok ⊢
  by_cases h1 : 0 < amount
  · cases hl : s.loans sender with
    | none => rw [hl] at hok; simp [h1, Except.isOk, Except.toBool] at hok
    | some ld =>
      rw [hl] at hok
      by_cases h2 : amount ≤ ld.borrowedAmount
      · exact ⟨ld, rfl, h1, h2, by simp [h1, h2]⟩
      · simp [h1, h2, Except.isOk, Except.toBool] at hok
  · simp [h1, Except.isOk, Except.toBool] at hok

/-- Successful withdrawals have exactly one shape: the collateral
shrinks by the withdrawn amount and, when debt is outstanding, the
collateralization check passed on the remainder. -/
theorem withdraw_ok_inv {s : VaultState} {sender amt price now : Nat}
    (hok : (withdrawCollateral s sender amt price now).isOk = true) :
    ∃ ld, s.loans sender = some ld ∧ amt ≤ ld.collateralAmount ∧
      (ld.collateralAmount - amt) * price < U64LIM ∧
      (0 < ld.borrowedAmount →
        ld.borrowedAmount * s.collateralizationRatio < U64LIM ∧
        ld.borrowedAmount * s.collateralizationRatio / 10000 ≤
          (ld.collateralAmount - amt) * price / 1000000) ∧
      withdrawCollateral s sender amt price now =
        .ok (setLoan s sender ⟨ld.collateralAmount - amt, ld.borrowedAmount, now⟩,
             ⟨s.exodAssetId, sender, amt⟩) := by
  unfold withdrawCollateral at hok ⊢
  cases hl : s.loans sender with
  | none => rw [hl] at hok; simp [Except.isOk, Except.toBool] at hok
  | some ld =>
    rw [hl] at hok
    by_cases h1 : amt ≤ ld.collateralAmount
    · by_cases h2 : (ld.collateralAmount - amt) * price < U64LIM
      · by_cases hb : 0 < ld.borrowedAmount
        · by_cases h3 : ld.borrowedAmount * s.collateralizationRatio < U64LIM
          · by_cases h4 : ld.borrowedAmount * s.collateralizationRatio / 10000 ≤
                (ld.collateralAmount - amt) * price / 1000000
            · exact ⟨ld, rfl, h1, h2, fun _ => ⟨h3, h4⟩, by simp [h1, h2, hb, h3, h4]⟩
            · simp [h1, h2, hb, h3, h4, Except.isOk, Except.toBool] at hok
          · simp [h1, h2, hb, h3, Except.isOk, Except.toBool] at hok
        · exact ⟨ld, rfl, h1, h2, fun hb2 => absurd hb2 hb, by simp [h1, h2, hb]⟩
      · simp [h1, h2, Except.isOk, Except.toBool] at hok
    · simp [h1, Except.isOk, Except.toBool] at hok

theorem withdraw_eq_ok {s : VaultState} {sender amt price now : Nat} {ld : LoanData}
    (hl : s.loans sender = some ld) (h1 : amt ≤ ld.collateralAmount)
    (h2 : (ld.collateralAmount - amt) * price < U64LIM)
    (h3 : 0 < ld.borrowedAmount →
      ld.borrowedAmount * s.collateralizationRatio < U64LIM ∧
      ld.borrowedAmount * s.collateralizationRatio / 10000 ≤
        (ld.collateralAmount - amt) * price / 1000000) :
    withdrawCollateral s sender amt price now =
      .ok (setLoan s sender ⟨ld.collateralAmount - amt, ld.borrowedAmount, now⟩,
           ⟨s.exodAssetId, sender, amt⟩) := by
  unfold withdrawCollateral
  rw [hl]
  by_cases hb : 0 < ld.borrowedAmount
  · obtain ⟨h4, h5⟩ := h3 hb
    simp [h1, h2, hb, h4, h5]
  · simp [h1, h2, hb]

theorem withdraw_eq_error_underc {s : VaultState} {sender amt price now : Nat}
    {ld : LoanData} (hl : s.loans sender = some ld)
    (h1 : amt ≤ ld.collateralAmount)
    (h2 : (ld.collateralAmount - amt) * price < U64LIM)
    (hb : 0 < ld.borrowedAmount)
    (h3 : ld.borrowedAmount * s.collateralizationRatio < U64LIM)
    (h4 : ¬ ld.borrowedAmount * s.collateralizationRatio / 10000 ≤
        (ld.collateralAmount - amt) * price / 1000000) :
    withdrawCollateral s sender amt price now =
      .error "Withdrawal would under-collateralize loan" := by
  unfold withdrawCollateral
  rw [hl]
  simp [h1, h2, hb, h3, h4]

/-- Successful liquidations have exactly one shape: the full collateral
goes to the liquidation address and the position is zeroed. -/
theorem liquidate_ok_inv {s : VaultState} {borrower price now : Nat}
    (hok : (liquidateLoan s borrower price now).isOk = true) :
    ∃ ld, s.loans borrower = some ld ∧
      0 < ld.borrowedAmount ∧ 0 < ld.collateralAmount ∧
      ld.collateralAmount * price < U64LIM ∧
      ld.borrowedAmount * s.liquidationThreshold < U64LIM ∧
      ld.collateralAmount * price / 1000000 <
        ld.borrowedAmount * s.liquidationThreshold / 10000 ∧
      liquidateLoan s borrower price now =
        .ok (setLoan s borrower ⟨0, 0, now⟩,
             ⟨s.exodAssetId, s.liquidationAddress, ld.collateralAmount⟩) := by
  unfold liquidateLoan at hok ⊢
  cases hl : s.loans borrower with
  | none => rw [hl] at hok; simp [Except.isOk, Except.toBool] at hok
  | some ld =>
    rw [hl] at hok
    by_cases h1 : 0 < ld.borrowedAmount
    · by_cases h2 : 0 < ld.collateralAmount
      · by_cases h3 : ld.collateralAmount * price < U64LIM
        · by_cases h4 : ld.borrowedAmount * s.liquidationThreshold < U64LIM
          · by_cases h5 : ld.collateralAmount * price / 1000000 <
                ld.borrowedAmount * s.liquidationThreshold / 10000
            · exact ⟨ld, rfl, h1, h2, h3, h4, h5, by simp [h1, h2, h3, h4, h5]⟩
            · simp [h1, h2, h3, h4, h5, Except.isOk, Except.toBool] at hok
          · simp [h1, h2, h3, h4, Except.isOk, Except.toBool] at hok
        · simp [h1, h2, h3, Except.isOk, Except.toBool] at hok
      · simp [h1, h2, Except.isOk, Except.toBool] at hok
    · simp [h1, Except.isOk, Except.toBool] at hok

theorem liquidate_eq_ok {s : VaultState} {borrower price now : Nat} {ld : LoanData}
    (hl : s.loans borrower = some ld)
    (h1 : 0 < ld.borrowedAmount) (h2 : 0 < ld.collateralAmount)
    (h3 : ld.collateralAmount * price < U64LIM)
    (h4 : ld.borrowedAmount * s.liquidationThreshold < U64LIM)
    (h5 : ld.collateralAmount * price / 1000000 <
      ld.borrowedAmount * s.liquidationThreshold / 10000) :
    liquidateLoan s borrower price now =
      .ok (setLoan s borrower ⟨0, 0, now⟩,
           ⟨s.exodAssetId, s.liquidationAddress, ld.collateralAmount⟩) := by
  unfold liquidateLoan
  rw [hl]
  simp [h1, h2, h3, h4, h5]


/-! ### Claim C1 -/

/-- Claim C1, counterexample: starting from a fresh vault with
collateralization ratio 15000 bps, depositing 1 collateral unit and
then successfully borrowing 1 debt unit at price 1000000 yields a
reachable position with debt_amount = 1 > 0 for which
collateral_value * 10000 = 10000 < 15000 = debt_amount * ratio_bps:
the product-form solvency inequality of the claim does NOT hold
immediately after a successful borrow, because the code only compares
against floor(debt * ratio / 10000). -/
theorem exod_c1_counterexample :
    (depositCollateral initState 7 1 100).isOk = true ∧
    (borrowStablecoin c1s1 7 1 1000000 200).isOk = true ∧
    getLoanInfo c1s2 7 = (1, 1, 200) ∧
    initState.collateralizationRatio = 15000 ∧
    ¬ 1 * initState.collateralizationRatio ≤ collateralValue 1 1000000 * 10000 := by
  decide

/-- Claim C1 (amended): immediately after a successful borrow or a
successful withdraw, the stored position satisfies the check the code
enforces with the price supplied to that operation:
collateral_value(collateral_amount, price) is at least
floor(debt_amount * collateralization_ratio_bps / 10000).  (The
product-form inequality collateral_value * 10000 >= debt * ratio_bps
fails in general — see the counterexample — and deposit takes no price
and performs no ratio check.) -/
theorem exod_c1_theorem (s : VaultState) (sender amt price now c b t : Nat) :
    ((borrowStablecoin s sender amt price now).isOk = true →
      (outStateT s (borrowStablecoin s sender amt price now)).loans sender = some ⟨c, b, t⟩ →
      b * s.collateralizationRatio / 10000 ≤ collateralValue c price) ∧
    ((withdrawCollateral s sender amt price now).isOk = true →
      (outStateT s (withdrawCollateral s sender amt price now)).loans sender = some ⟨c, b, t⟩ →
      0 < b →
      b * s.collateralizationRatio / 10000 ≤ collateralValue c price) := by
  constructor
  · intro hok hpost
    obtain ⟨ld, hl, h1, h2, h3, h4, heq⟩ := borrow_ok_inv hok
    rw [heq] at hpost
    simp only [outStateT, setLoan_loans_self, Option.some.injEq, LoanData.mk.injEq] at hpost
    obtain ⟨hc, hb, -⟩ := hpost
    rw [← hc, ← hb]
    exact h4
  · intro hok hpost hbpos
    obtain ⟨ld, hl, h1, h2, h3, heq⟩ := withdraw_ok_inv hok
    rw [heq] at hpost
    simp only [outStateT, setLoan_loans_self, Option.some.injEq, LoanData.mk.injEq] at hpost
    obtain ⟨hc, hb, -⟩ := hpost
    rw [← hc, ← hb]
    rw [← hb] at hbpos
    exact (h3 hbpos).2

/-- Claim C1, witness: Scenario 1 of the spec — borrowing 50,000,000
against 10,000,000 collateral units at price 10,000,000 succeeds and
the amended inequality holds on the resulting position. -/
theorem exod_c1_witness :
    50000000 * c1wState.collateralizationRatio / 10000 ≤
      collateralValue 10000000 10000000 :=
  (exod_c1_theorem c1wState 7 50000000 10000000 300 10000000 50000000 300).1
    (by decide) (by decide)

/-! ### Claim C2 -/

/-- Claim C2, counterexample: collateral 3, debt 3, price 1000000,
threshold 12000 bps.  The spec formula says liquidatable
(3 * 10000 = 30000 < 36000 = 3 * 12000) but the liquidate operation
rejects the position, because the code compares
collateral_value < floor(debt * threshold / 10000) = 3 and
3 < 3 is false.  The stated iff is therefore false. -/
theorem exod_c2_counterexample :
    isLiquidatableSpec 3 3 1000000 12000 = true ∧
    c2CexState.liquidationThreshold = 12000 ∧
    c2CexState.loans 5 = some ⟨3, 3, 0⟩ ∧
    (liquidateLoan c2CexState 5 1000000 300).isOk = false := by
  decide

/-- Claim C2 (amended): the liquidate operation accepts a position
(with positive debt and collateral, products in u64 range) if and only
if collateral_value(collateral, price) < floor(debt * threshold_bps /
10000); a position whose collateral value exactly equals that floored
threshold value is NOT liquidatable, and one whose collateral value is
one unit below it IS liquidatable.  (The claim's product form
collateral_value * 10000 < debt * threshold_bps differs from the
code's guard whenever debt * threshold_bps is not a multiple of
10000 — see the counterexample.) -/
theorem exod_c2_theorem (s : VaultState) (borrower c d t0 price now : Nat)
    (hl : s.loans borrower = some ⟨c, d, t0⟩)
    (hm1 : c * price < U64LIM) (hm2 : d * s.liquidationThreshold < U64LIM) :
    ((liquidateLoan s borrower price now).isOk = true ↔
      (0 < d ∧ 0 < c ∧ collateralValue c price < d * s.liquidationThreshold / 10000)) ∧
    (collateralValue c price = d * s.liquidationThreshold / 10000 →
      (liquidateLoan s borrower price now).isOk = false) ∧
    (0 < d → 0 < c → collateralValue c price + 1 = d * s.liquidationThreshold / 10000 →
      (liquidateLoan s borrower price now).isOk = true) := by
  have hiff : (liquidateLoan s borrower price now).isOk = true ↔
      (0 < d ∧ 0 < c ∧ collateralValue c price < d * s.liquidationThreshold / 10000) := by
    unfold liquidateLoan collateralValue
    rw [hl]
    by_cases h1 : 0 < d
    · by_cases h2 : 0 < c
      · by_cases h3 : c * price / 1000000 < d * s.liquidationThreshold / 10000
        · simp [h1, h2, hm1, hm2, h3, Except.isOk, Except.toBool]
        · simp [h1, h2, hm1, hm2, h3, Except.isOk, Except.toBool]
      · simp [h1, h2, Except.isOk, Except.toBool]
    · simp [h1, Except.isOk, Except.toBool]
  refine ⟨hiff, ?_, ?_⟩
  · intro heqv
    cases hres : (liquidateLoan s borrower price now).isOk with
    | false => rfl
    | true =>
      obtain ⟨-, -, hlt⟩ := hiff.mp hres
      omega
  · intro hd hc hplus
    exact hiff.mpr ⟨hd, hc, by omega⟩

/-- Claim C2, witness: Scenario 3 of the spec — collateral 15,000,000,
debt 100,000,000, threshold 12000 bps.  At price 7,990,000 the
collateral value 119,850,000 is below the threshold value 120,000,000
and the boundary facts hold as stated. -/
theorem exod_c2_witness :
    ((liquidateLoan c2wState 5 7990000 500).isOk = true ↔
      (0 < 100000000 ∧ 0 < 15000000 ∧
        collateralValue 15000000 7990000 <
          100000000 * c2wState.liquidationThreshold / 10000)) ∧
    (collateralValue 15000000 7990000 =
        100000000 * c2wState.liquidationThreshold / 10000 →
      (liquidateLoan c2wState 5 7990000 500).isOk = false) ∧
    (0 < 100000000 → 0 < 15000000 →
      collateralValue 15000000 7990000 + 1 =
        100000000 * c2wState.liquidationThreshold / 10000 →
      (liquidateLoan c2wState 5 7990000 500).isOk = true) :=
  exod_c2_theorem c2wState 5 15000000 100000000 0 7990000 500
    (by decide) (by decide) (by decide)

/-! ### Claim C3 -/

/-- Claim C3: liquidation requires an existing position with positive
debt and positive collateral that is strictly below the liquidation
threshold; on success it transfers the FULL collateral amount of the
collateral asset to the liquidation beneficiary and zeroes the
position (collateral_amount = 0, debt_amount = 0, timestamp = now) —
all-or-nothing, no partial liquidation. -/
theorem exod_c3_theorem (s : VaultState) (borrower price now : Nat) :
    (s.loans borrower = none → (liquidateLoan s borrower price now).isOk = false) ∧
    (∀ c d t0, s.loans borrower = some ⟨c, d, t0⟩ →
      (liquidateLoan s borrower price now).isOk = true →
      0 < d ∧ 0 < c ∧
      collateralValue c price < d * s.liquidationThreshold / 10000 ∧
      transferOf (liquidateLoan s borrower price now) =
        some ⟨s.exodAssetId, s.liquidationAddress, c⟩ ∧
      (outStateT s (liquidateLoan s borrower price now)).loans borrower =
        some ⟨0, 0, now⟩) := by
  constructor
  · intro hnone
    unfold liquidateLoan
    rw [hnone]
    rfl
  · intro c d t0 hl hok
    obtain ⟨ld, hl2, hb, hc, hm1, hm2, hlt, heq⟩ := liquidate_ok_inv hok
    rw [hl] at hl2
    obtain ⟨hc2, hb2, -⟩ : c = ld.collateralAmount ∧ d = ld.borrowedAmount ∧
        t0 = ld.lastUpdateTime := by
      cases ld
      simpa [LoanData.mk.injEq] using hl2
    subst hc2; subst hb2
    refine ⟨hb, hc, hlt, ?_, ?_⟩
    · rw [heq]; rfl
    · rw [heq]
      simp only [outStateT, setLoan_loans_self]

/-- Claim C3, witness: Scenario 5 of the spec — liquidating collateral
20,000,000 against debt 150,000,000 under threshold 12000 bps at price
8,000,000 seizes all 20,000,000 units to the beneficiary and zeroes
the position. -/
theorem exod_c3_witness :
    0 < 150000000 ∧ 0 < 20000000 ∧
    collateralValue 20000000 8000000 <
      150000000 * c3State.liquidationThreshold / 10000 ∧
    transferOf (liquidateLoan c3State 5 8000000 400) =
      some ⟨c3State.exodAssetId, c3State.liquidationAddress, 20000000⟩ ∧
    (outStateT c3State (liquidateLoan c3State 5 8000000 400)).loans 5 =
      some ⟨0, 0, 400⟩ :=
  (exod_c3_theorem c3State 5 8000000 400).2 20000000 150000000 0
    (by decide) (by decide)

/-! ### Claim C4 -/

/-- Claim C4, code bug: the primary draft's depositCollateral
(contract.algo.ts lines 106-151) consults NO frozen predicate at all:
even for an account whose collateral holding is frozen, the deposit
succeeds and collateral_amount grows, contradicting the claim, the
draft's own doc comment (lines 99-100, 126) and the repository's test
"should reject deposit if EXOD asset is frozen".  The second draft
(lines 496-527), modelled as depositCollateralV2, behaves exactly as
the claim requires at the same input: frozen yields a compliance error
with the state unchanged, not-frozen adds the amount. -/
theorem exod_c4_bug :
    (depositCollateral initState 7 5 100).isOk = true ∧
    getLoanInfo (outState initState (depositCollateral initState 7 5 100)) 7 =
      (5, 0, 100) ∧
    (depositCollateralV2 initState (fun _ => true) 7 5 100).isOk = false ∧
    errorOf (depositCollateralV2 initState (fun _ => true) 7 5 100) =
      some "EXOD asset is frozen - compliance violation detected" ∧
    outState initState (depositCollateralV2 initState (fun _ => true) 7 5 100) =
      initState ∧
    (depositCollateralV2 initState (fun _ => false) 7 5 100).isOk = true ∧
    getLoanInfo
      (outState initState (depositCollateralV2 initState (fun _ => false) 7 5 100)) 7 =
      (5, 0, 100) :=
  ⟨by decide, by decide, by decide, by decide, rfl, by decide, by decide⟩

/-! ### Claim C5 -/

/-- Claim C5, counterexample: on an existing position (collateral 10,
debt 0), borrowStablecoin with borrowAmount = 0 and withdrawCollateral
with withdrawAmount = 0 both SUCCEED (and mutate last_update_time),
instead of being rejected with a validation error: neither method
validates its amount argument. -/
theorem exod_c5_counterexample :
    c5State.loans 7 = some ⟨10, 0, 0⟩ ∧
    (borrowStablecoin c5State 7 0 1000000 100).isOk = true ∧
    getLoanInfo (outStateT c5State (borrowStablecoin c5State 7 0 1000000 100)) 7 =
      (10, 0, 100) ∧
    transferOf (borrowStablecoin c5State 7 0 1000000 100) = some ⟨20, 7, 0⟩ ∧
    (withdrawCollateral c5State 7 0 1000000 100).isOk = true ∧
    getLoanInfo (outStateT c5State (withdrawCollateral c5State 7 0 1000000 100)) 7 =
      (10, 0, 100) := by
  decide

/-- Claim C5 (amended): zero-amount borrow and withdraw are NOT
rejected: on any existing position whose products stay in u64 range
and that satisfies the collateralization check, borrowStablecoin with
amount 0 and withdrawCollateral with amount 0 both succeed, leave both
balances unchanged and refresh last_update_time.  (Only deposit and
repay reject zero, via the positivity assert on the group-transfer
amount.) -/
theorem exod_c5_theorem (s : VaultState) (sender c d t0 price now : Nat)
    (hl : s.loans sender = some ⟨c, d, t0⟩)
    (hd : d < U64LIM)
    (hm1 : c * price < U64LIM) (hm2 : d * s.collateralizationRatio < U64LIM)
    (hhealth : d * s.collateralizationRatio / 10000 ≤ collateralValue c price) :
    (borrowStablecoin s sender 0 price now).isOk = true ∧
    getLoanInfo (outStateT s (borrowStablecoin s sender 0 price now)) sender =
      (c, d, now) ∧
    (withdrawCollateral s sender 0 price now).isOk = true ∧
    getLoanInfo (outStateT s (withdrawCollateral s sender 0 price now)) sender =
      (c, d, now) := by
  have hb : borrowStablecoin s sender 0 price now =
      .ok (setLoan s sender ⟨c, d + 0, now⟩, ⟨s.stablecoinAssetId, sender, 0⟩) :=
    borrow_eq_ok hl hm1 hd hm2 hhealth
  have hw : withdrawCollateral s sender 0 price now =
      .ok (setLoan s sender ⟨c - 0, d, now⟩, ⟨s.exodAssetId, sender, 0⟩) :=
    withdraw_eq_ok hl (Nat.zero_le c) hm1 (fun _ => ⟨hm2, hhealth⟩)
  rw [hb, hw]
  refine ⟨rfl, ?_, rfl, ?_⟩
  · simp only [outStateT, getLoanInfo, setLoan_loans_self, Nat.add_zero]
  · simp only [outStateT, getLoanInfo, setLoan_loans_self, Nat.sub_zero]

/-- Claim C5, witness: the amended statement instantiated on the
position (collateral 10, debt 0). -/
theorem exod_c5_witness :
    (borrowStablecoin c5State 7 0 1000000 50).isOk = true ∧
    getLoanInfo (outStateT c5State (borrowStablecoin c5State 7 0 1000000 50)) 7 =
      (10, 0, 50) ∧
    (withdrawCollateral c5State 7 0 1000000 50).isOk = true ∧
    getLoanInfo (outStateT c5State (withdrawCollateral c5State 7 0 1000000 50)) 7 =
      (10, 0, 50) :=
  exod_c5_theorem c5State 7 10 0 0 1000000 50
    (by decide) (by decide) (by decide) (by decide) (by decide)

/-! ### Claim C6 -/

/-- Claim C6: for an existing position and positive repay amount,
repayLoan succeeds exactly when the amount does not exceed the debt;
on success the debt drops by exactly that amount, the collateral is
unchanged and the timestamp is refreshed; on excess repayment the call
is rejected and the state is completely unchanged (no clamping). -/
theorem exod_c6_theorem (s : VaultState) (sender c d t0 amt now : Nat)
    (hl : s.loans sender = some ⟨c, d, t0⟩) (hamt : 0 < amt) :
    ((repayLoan s sender amt now).isOk = true ↔ amt ≤ d) ∧
    (amt ≤ d →
      getLoanInfo (outState s (repayLoan s sender amt now)) sender = (c, d - amt, now)) ∧
    (d < amt → outState s (repayLoan s sender amt now) = s) := by
  refine ⟨?_, ?_, ?_⟩
  · unfold repayLoan
    rw [hl]
    by_cases h : amt ≤ d
    · simp [hamt, h, Except.isOk, Except.toBool]
    · simp [hamt, h, Except.isOk, Except.toBool]
  · intro h
    have heq : repayLoan s sender amt now =
        .ok (setLoan s sender ⟨c, d - amt, now⟩) := by
      unfold repayLoan
      rw [hl]
      simp [hamt, h]
    rw [heq]
    simp only [outState, getLoanInfo, setLoan_loans_self]
  · intro h
    have heq : repayLoan s sender amt now =
        .error "Repayment exceeds borrowed amount" := by
      unfold repayLoan
      rw [hl]
      simp [hamt, show ¬ amt ≤ d by omega]
    rw [heq]
    rfl

/-- Claim C6, witness: repaying 3 out of 7 debt units succeeds and
leaves (10, 4, now); the excess branch is vacuous here. -/
theorem exod_c6_witness :
    ((repayLoan c6wState 7 3 50).isOk = true ↔ 3 ≤ 7) ∧
    (3 ≤ 7 →
      getLoanInfo (outState c6wState (repayLoan c6wState 7 3 50)) 7 = (10, 7 - 3, 50)) ∧
    (7 < 3 → outState c6wState (repayLoan c6wState 7 3 50) = c6wState) :=
  exod_c6_theorem c6wState 7 10 7 0 3 50 (by decide) (by decide)

/-! ### Claim C7 -/

/-- Claim C7: on a debt-free position, Deposit(d) followed by
Withdraw(d) at any price returns collateral_amount exactly to its
value before the deposit (the sums stay in u64 range, matching the AVM
where an overflowing deposit would abort instead of completing). -/
theorem exod_c7_theorem (s : VaultState) (sender c t0 d price now1 now2 : Nat)
    (hl : s.loans sender = some ⟨c, 0, t0⟩) (hd : 0 < d)
    (hadd : c + d < U64LIM) (hmul : c * price < U64LIM) :
    (depositCollateral s sender d now1).isOk = true ∧
    (withdrawCollateral (outState s (depositCollateral s sender d now1))
      sender d price now2).isOk = true ∧
    getLoanInfo
      (outStateT (outState s (depositCollateral s sender d now1))
        (withdrawCollateral (outState s (depositCollateral s sender d now1))
          sender d price now2)) sender = (c, 0, now2) := by
  have hdep : depositCollateral s sender d now1 =
      .ok (setLoan s sender ⟨c + d, 0, now1⟩) :=
    deposit_eq_ok hl hd hadd
  rw [hdep]
  simp only [outState]
  have hl1 : (setLoan s sender ⟨c + d, 0, now1⟩).loans sender =
      some ⟨c + d, 0, now1⟩ := setLoan_loans_self _ _ _
  have hw : withdrawCollateral (setLoan s sender ⟨c + d, 0, now1⟩) sender d price now2 =
      .ok (setLoan (setLoan s sender ⟨c + d, 0, now1⟩) sender ⟨c + d - d, 0, now2⟩,
           ⟨(setLoan s sender ⟨c + d, 0, now1⟩).exodAssetId, sender, d⟩) :=
    withdraw_eq_ok hl1 (Nat.le_add_left d c)
      (by simpa [Nat.add_sub_cancel] using hmul)
      (fun hb => absurd hb (by simp))
  rw [hw]
  refine ⟨rfl, rfl, ?_⟩
  simp only [outStateT, getLoanInfo, setLoan_loans_self, Nat.add_sub_cancel]

/-- Claim C7, witness: depositing 40 on a debt-free position of 100
and withdrawing 40 at price 1000000 restores collateral 100. -/
theorem exod_c7_witness :
    (depositCollateral c7wState 7 40 10).isOk = true ∧
    (withdrawCollateral (outState c7wState (depositCollateral c7wState 7 40 10))
      7 40 1000000 20).isOk = true ∧
    getLoanInfo
      (outStateT (outState c7wState (depositCollateral c7wState 7 40 10))
        (withdrawCollateral (outState c7wState (depositCollateral c7wState 7 40 10))
          7 40 1000000 20)) 7 = (100, 0, 20) :=
  exod_c7_theorem c7wState 7 100 0 40 1000000 10 20
    (by decide) (by decide) (by decide) (by decide)

/-! ### Claim C8 -/

/-- Claim C8: updateLiquidationParams succeeds exactly when the caller
is the creator, the new threshold exceeds 10000 bps and the new ratio
exceeds the new threshold; after every successful update
collateralization_ratio_bps > liquidation_threshold_bps > 10000; a new
threshold of 9000 is always rejected; and a rejected call leaves the
parameters (and all state) unchanged. -/
theorem exod_c8_theorem (s : VaultState) (sender nt nr : Nat) :
    ((updateLiquidationParams s sender nt nr).isOk = true ↔
      (sender = s.creatorAddress ∧ 10000 < nt ∧ nt < nr)) ∧
    ((updateLiquidationParams s sender nt nr).isOk = true →
      (outState s (updateLiquidationParams s sender nt nr)).collateralizationRatio = nr ∧
      (outState s (updateLiquidationParams s sender nt nr)).liquidationThreshold = nt ∧
      10000 < nt ∧ nt < nr) ∧
    ((updateLiquidationParams s sender 9000 nr).isOk = false) ∧
    ((updateLiquidationParams s sender nt nr).isOk = false →
      outState s (updateLiquidationParams s sender nt nr) = s) := by
  have hiffGen : ∀ nt2 nr2, ((updateLiquidationParams s sender nt2 nr2).isOk = true ↔
      (sender = s.creatorAddress ∧ 10000 < nt2 ∧ nt2 < nr2)) := by
    intro nt2 nr2
    unfold updateLiquidationParams
    by_cases h1 : sender = s.creatorAddress <;>
      by_cases h2 : 10000 < nt2 <;>
        by_cases h3 : nt2 < nr2 <;>
          simp [h1, h2, h3, Except.isOk, Except.toBool]
  refine ⟨hiffGen nt nr, ?_, ?_, fun hfail => outState_of_isOk_false hfail⟩
  · intro hok
    obtain ⟨h1, h2, h3⟩ := (hiffGen nt nr).mp hok
    have heq : updateLiquidationParams s sender nt nr =
        .ok { s with liquidationThreshold := nt, collateralizationRatio := nr } := by
      unfold updateLiquidationParams
      simp [h1, h2, h3]
    rw [heq]
    exact ⟨rfl, rfl, h2, h3⟩
  · cases hres : (updateLiquidationParams s sender 9000 nr).isOk with
    | false => rfl
    | true =>
      obtain ⟨-, h2, -⟩ := (hiffGen 9000 nr).mp hres
      omega

/-- Claim C8, witness: the creator updating to threshold 12000 and
ratio 15000 on a fresh vault, and the rejected 9000 threshold. -/
theorem exod_c8_witness :
    ((updateLiquidationParams initState 0 12000 15000).isOk = true ↔
      (0 = initState.creatorAddress ∧ 10000 < 12000 ∧ 12000 < 15000)) ∧
    ((updateLiquidationParams initState 0 12000 15000).isOk = true →
      (outState initState
        (updateLiquidationParams initState 0 12000 15000)).collateralizationRatio = 15000 ∧
      (outState initState
        (updateLiquidationParams initState 0 12000 15000)).liquidationThreshold = 12000 ∧
      10000 < 12000 ∧ 12000 < 15000) ∧
    ((updateLiquidationParams initState 0 9000 15000).isOk = false) ∧
    ((updateLiquidationParams initState 0 12000 15000).isOk = false →
      outState initState (updateLiquidationParams initState 0 12000 15000) = initState) :=
  exod_c8_theorem initState 0 12000 15000

/-! ### Claim C9 -/

/-- Claim C9, counterexample: none of the price-taking operations
divides by the price (all divisions are by the constants 1e6 and
10000), so price = 0 is never a domain error.  On a position with
collateral 100 and debt 100 under threshold 12000, liquidateLoan at
price 0 SUCCEEDS — it values the collateral at 0, seizes all 100 units
and zeroes the position — and borrowStablecoin at price 0 fails with
the ordinary insufficient-collateral assert, not an arithmetic/domain
error. -/
theorem exod_c9_counterexample :
    (liquidateLoan c9State 5 0 600).isOk = true ∧
    transferOf (liquidateLoan c9State 5 0 600) = some ⟨10, 1, 100⟩ ∧
    getLoanInfo (outStateT c9State (liquidateLoan c9State 5 0 600)) 5 = (0, 0, 600) ∧
    errorOf (borrowStablecoin c9State 5 10 0 600) =
      some "Insufficient collateral for borrow amount" ∧
    errorOf (withdrawCollateral c9State 5 10 0 600) =
      some "Withdrawal would under-collateralize loan" := by
  decide

/-- Claim C9 (amended): no operation validates the price.  A zero
price yields a zero collateral valuation that flows through the
ordinary checks: liquidateLoan at price 0 succeeds whenever the other
preconditions hold and the floored threshold value is positive, while
borrowStablecoin and withdrawCollateral at price 0 are rejected with
their usual collateralization asserts (not a domain error) whenever
the floored required collateral value is positive. -/
theorem exod_c9_theorem (s : VaultState) (acct c d t0 amt now : Nat)
    (hl : s.loans acct = some ⟨c, d, t0⟩) :
    (0 < d → 0 < c → d * s.liquidationThreshold < U64LIM →
      0 < d * s.liquidationThreshold / 10000 →
      (liquidateLoan s acct 0 now).isOk = true) ∧
    (d + amt < U64LIM → (d + amt) * s.collateralizationRatio < U64LIM →
      0 < (d + amt) * s.collateralizationRatio / 10000 →
      errorOf (borrowStablecoin s acct amt 0 now) =
        some "Insufficient collateral for borrow amount") ∧
    (amt ≤ c → 0 < d → d * s.collateralizationRatio < U64LIM →
      0 < d * s.collateralizationRatio / 10000 →
      errorOf (withdrawCollateral s acct amt 0 now) =
        some "Withdrawal would under-collateralize loan") := by
  have h0 : (0 : Nat) < U64LIM := by decide
  refine ⟨?_, ?_, ?_⟩
  · intro hd hc hm ht
    have heq : liquidateLoan s acct 0 now =
        .ok (setLoan s acct ⟨0, 0, now⟩, ⟨s.exodAssetId, s.liquidationAddress, c⟩) :=
      liquidate_eq_ok hl hd hc (by simpa using h0) hm (by simpa using ht)
    rw [heq]
    rfl
  · intro h2 h3 h4
    have heq : borrowStablecoin s acct amt 0 now =
        .error "Insufficient collateral for borrow amount" :=
      borrow_eq_error_insufficient hl (by simpa using h0) h2 h3
        (by simp only [Nat.mul_zero, Nat.zero_div]; omega)
    rw [heq]
    rfl
  · intro h1 hd h3 h4
    have heq : withdrawCollateral s acct amt 0 now =
        .error "Withdrawal would under-collateralize loan" :=
      withdraw_eq_error_underc hl h1 (by simpa using h0) hd h3
        (by simp only [Nat.mul_zero, Nat.zero_div]; omega)
    rw [heq]
    rfl

/-- Claim C9, witness: the amended statement instantiated on the
position (collateral 100, debt 100). -/
theorem exod_c9_witness :
    (liquidateLoan c9State 5 0 700).isOk = true ∧
    errorOf (borrowStablecoin c9State 5 10 0 700) =
      some "Insufficient collateral for borrow amount" ∧
    errorOf (withdrawCollateral c9State 5 10 0 700) =
      some "Withdrawal would under-collateralize loan" :=
  ⟨(exod_c9_theorem c9State 5 100 100 0 10 700 (by decide)).1
      (by decide) (by decide) (by decide) (by decide),
   (exod_c9_theorem c9State 5 100 100 0 10 700 (by decide)).2.1
      (by decide) (by decide) (by decide),
   (exod_c9_theorem c9State 5 100 100 0 10 700 (by decide)).2.2
      (by decide) (by decide) (by decide) (by decide)⟩

/-! ### Claim C10 -/

/-- Claim C10: every operation acting on one account leaves every
other account's loan record — collateral, debt and timestamp — exactly
as it was, whether the operation succeeds or is rejected (a rejected
call mutates nothing at all). -/
theorem exod_c10_theorem (s : VaultState) (acct other amt price now : Nat)
    (h : other ≠ acct) :
    (outState s (depositCollateral s acct amt now)).loans other = s.loans other ∧
    (outStateT s (borrowStablecoin s acct amt price now)).loans other = s.loans other ∧
    (outState s (repayLoan s acct amt now)).loans other = s.loans other ∧
    (outStateT s (withdrawCollateral s acct amt price now)).loans other = s.loans other ∧
    (outStateT s (liquidateLoan s acct price now)).loans other = s.loans other := by
  refine ⟨?_, ?_, ?_, ?_, ?_⟩
  · cases hres : depositCollateral s acct amt now with
    | error e => rfl
    | ok v =>
      have hok : (depositCollateral s acct amt now).isOk = true := by rw [hres]; rfl
      obtain ⟨-, -, heq⟩ := deposit_ok_inv hok
      rw [hres] at heq
      injection heq with hv
      rw [hv]
      exact setLoan_loans_ne _ h
  · cases hres : borrowStablecoin s acct amt price now with
    | error e => rfl
    | ok v =>
      have hok : (borrowStablecoin s acct amt price now).isOk = true := by rw [hres]; rfl
      obtain ⟨ld, -, -, -, -, -, heq⟩ := borrow_ok_inv hok
      rw [hres] at heq
      injection heq with hv
      rw [hv]
      exact setLoan_loans_ne _ h
  · cases hres : repayLoan s acct amt now with
    | error e => rfl
    | ok v =>
      have hok : (repayLoan s acct amt now).isOk = true := by rw [hres]; rfl
      obtain ⟨ld, -, -, -, heq⟩ := repay_ok_inv hok
      rw [hres] at heq
      injection heq with hv
      rw [hv]
      exact setLoan_loans_ne _ h
  · cases hres : withdrawCollateral s acct amt price now with
    | error e => rfl
    | ok v =>
      have hok : (withdrawCollateral s acct amt price now).isOk = true := by rw [hres]; rfl
      obtain ⟨ld, -, -, -, -, heq⟩ := withdraw_ok_inv hok
      rw [hres] at heq
      injection heq with hv
      rw [hv]
      exact setLoan_loans_ne _ h
  · cases hres : liquidateLoan s acct price now with
    | error e => rfl
    | ok v =>
      have hok : (liquidateLoan s acct price now).isOk = true := by rw [hres]; rfl
      obtain ⟨ld, -, -, -, -, -, -, heq⟩ := liquidate_ok_inv hok
      rw [hres] at heq
      injection heq with hv
      rw [hv]
      exact setLoan_loans_ne _ h

/-- Claim C10, witness: all five operations performed by (or targeting)
account 7 leave account 1's record untouched. -/
theorem exod_c10_witness :
    (outState c6wState (depositCollateral c6wState 7 3 50)).loans 1 =
      c6wState.loans 1 ∧
    (outStateT c6wState (borrowStablecoin c6wState 7 3 1000000 50)).loans 1 =
      c6wState.loans 1 ∧
    (outState c6wState (repayLoan c6wState 7 3 50)).loans 1 = c6wState.loans 1 ∧
    (outStateT c6wState (withdrawCollateral c6wState 7 3 1000000 50)).loans 1 =
      c6wState.loans 1 ∧
    (outStateT c6wState (liquidateLoan c6wState 7 1000000 50)).loans 1 =
      c6wState.loans 1 :=
  exod_c10_theorem c6wState 7 1 3 1000000 50 (by decide)

end ExodTools
